import Mathlib

/-!
Verification of the JDK discovery/validation subsystem and the webview panel
lifecycle of this repository (src/java-runtime/index.ts, src/ext-guide/index.ts,
and the getting-started panel module).

Strings are embedded as `List Char`. Effectful host facilities (configuration
store, environment variables, filesystem existence checks, subprocess output,
HTTP) are embedded as fields of an explicit `Env` record, so every function of
the source becomes a pure Lean function of the environment.
-/

namespace JavaPack

/-! ### Version banner parsing (`parseMajorVersion`, index.ts lines 96-116)

The source uses the JavaScript regular expression `version "(.*)"` (exec, i.e.
leftmost match; `.` matches any character except a line terminator; `.*` is
greedy, so the capture extends to the last closing quote on the same line),
followed by `\d+` (first run of decimal digits) and `parseInt`.
-/

/-- A character the JavaScript regex `.` matches: anything except the four
line terminators LF, CR, U+2028, U+2029. -/
def notLineTerm (c : Char) : Bool :=
  c != '\n' && c != '\r' && c != Char.ofNat 0x2028 && c != Char.ofNat 0x2029

/-- The literal part of the regex `version "(.*)"` before the capture group. -/
def versionLit : List Char := "version \"".toList

/-- The portion of the input that `.` can still match: the run of
non-line-terminator characters at the front. -/
def lineRun (s : List Char) : List Char := s.takeWhile notLineTerm

/-- Greedy backtracking of `(.*)"`: the prefix of `l` that precedes the LAST
double quote of `l`, or `none` when `l` has no double quote. -/
def dropAfterLastQuote : List Char → Option (List Char)
  | [] => none
  | c :: t =>
    match dropAfterLastQuote t with
    | some p => some (c :: p)
    | none => if c = '"' then some [] else none

/-- `exec` of `/version "(.*)"/` on the content: try each start position from
the left; at a position where the literal `version "` matches, the whole
pattern matches exactly when a closing quote exists before the next line
terminator, and the greedy capture runs to the last such quote. -/
def findVersionToken : List Char → Option (List Char)
  | [] => none
  | c :: rest =>
    if versionLit.isPrefixOf (c :: rest) then
      match dropAfterLastQuote (lineRun ((c :: rest).drop versionLit.length)) with
      | some cap => some cap
      | none => findVersionToken rest
    else
      findVersionToken rest

/-- `exec` of `/\d+/`: the first run of decimal digits. -/
def firstDigitRun (s : List Char) : List Char :=
  (s.dropWhile (fun c => !c.isDigit)).takeWhile (fun c => c.isDigit)

/-- `parseInt(_, 10)` on a run of decimal digits. -/
def digitsToNat (ds : List Char) : Nat :=
  ds.foldl (fun a c => a * 10 + (c.toNat - 48)) 0

/-- The part of `parseMajorVersion` after the quoted token is in hand: strip a
legacy `1.` prefix, then take the first run of decimal digits (version `0`
when there is none). -/
def majorOfToken (tok : List Char) : Nat :=
  let v := if ("1.".toList).isPrefixOf tok then tok.drop 2 else tok
  let run := firstDigitRun v
  if run.isEmpty then 0 else digitsToNat run

/-- `parseMajorVersion` (index.ts lines 96-116). -/
def parseMajorVersion (content : List Char) : Nat :=
  match findVersionToken content with
  | none => 0
  | some tok => majorOfToken tok

/-- Declarative reading of "the content matches `version "(.*)"` somewhere":
after some prefix, the literal `version "` occurs, followed by a capture free
of line terminators and a closing quote. -/
def hasVersionPattern (content : List Char) : Prop :=
  ∃ pre mid post : List Char,
    content = pre ++ versionLit ++ mid ++ '"' :: post ∧
    ∀ c ∈ mid, notLineTerm c = true

/-! ### Data model

`JavaRuntimeEntry` and `JavaRuntimeEntryTypes` are imported by index.ts from
"./types", a file not included under src/; the fields and constructors below
follow their use sites in index.ts (lines 130-204) and the data-model section
of the spec: `isValid` and `hint` are optional and absent on construction. -/

inductive JavaRuntimeEntryTypes where
  | UserSetting
  | EnvironmentVariable
  | Other
deriving DecidableEq

structure JavaRuntimeEntry where
  name : List Char
  path : Option (List Char)
  type : JavaRuntimeEntryTypes
  actionUri : Option (List Char)
  isValid : Option Bool
  hint : Option (List Char)
deriving DecidableEq

/-- `lodash.isEmpty` on a `string | undefined` value: `undefined` and the
empty string are empty, any other string is not. -/
def pathIsEmpty : Option (List Char) → Bool
  | none => true
  | some s => s.isEmpty

/-! ### Environment

All host state the subsystem reads: the configuration store, the two
environment variables, the `find-java-home` probe (`none` models its error
callback), the platform and architecture identifiers, the home directory used
by tilde expansion, a filesystem existence oracle, the diagnostic-stream
output of `bin/java -version` (`none` models an execution failure, whose
callback receives an error and no diagnostic output), and the HTTP client
(already-parsed JSON response, or a failure that propagates). -/

structure Env where
  javaHomeSetting : Option (List Char)
  jdkHomeEnvVar : Option (List Char)
  javaHomeEnvVar : Option (List Char)
  autoDetected : Option (List Char)
  platform : List Char
  arch : List Char
  homeDir : List Char
  pathExists : List Char → Bool
  execJavaStderr : List Char → Option (List Char)
  httpGet : List Char → Except (List Char) (List Char)

/-- `process.platform.indexOf("win") === 0` (index.ts line 90). -/
def isWin (env : Env) : Bool := ("win".toList).isPrefixOf env.platform

/-- `MIN_JDK_VERSION` (index.ts line 16). -/
def MIN_JDK_VERSION : Nat := 11

/-- `JAVAC_FILENAME = path.join("bin", "javac" + (isWindows ? ".exe" : ""))`;
the platform separator is modelled as `/`. -/
def javacFilename (w : Bool) : List Char :=
  "bin/javac".toList ++ (if w then ".exe".toList else [])

/-- `JAVA_FILENAME = path.join("bin", "java" + (isWindows ? ".exe" : ""))`. -/
def javaFilename (w : Bool) : List Char :=
  "bin/java".toList ++ (if w then ".exe".toList else [])

/-- Models `path.resolve(base, file)` for the relative `file` names above:
join with a separator. -/
def resolvePath (base file : List Char) : List Char := base ++ '/' :: file

/-- Models the `expand-tilde` package: a leading `~` is replaced by the
invoking user's home directory; other paths are unchanged. -/
def expandTilde (homeDir : List Char) (p : List Char) : List Char :=
  match p with
  | '~' :: rest => homeDir ++ rest
  | _ => p

/-! ### Models of node `path.parse(..).name`

`findJavaRuntimeEntries` asks for `path.parse(entry.path || "").name`: the
final path segment (trailing separators ignored) with its dot-extension
removed, where a dot at the start of the segment and an all-dots segment do
not count as an extension. On Windows both `/` and `\` separate segments. -/

def isSep (w : Bool) (c : Char) : Bool := c = '/' || (w && c = '\\')

/-- Final path segment, trailing separators ignored (node `path.parse` base). -/
def baseNameOf (w : Bool) (p : List Char) : List Char :=
  (((p.reverse.dropWhile (isSep w)).takeWhile (fun c => !(isSep w c)))).reverse

/-- Node `path.parse(p).name`: the final segment with its extension removed. -/
def parseName (w : Bool) (p : List Char) : List Char :=
  let b := baseNameOf w p
  let pre := ((b.reverse.dropWhile (fun c => c ≠ '.')).drop 1).reverse
  if !(b.contains '.') then b
  else if pre.isEmpty then b
  else if (b.dropWhile (fun c => c = '.')).isEmpty then b
  else pre

/-- `asciiLower` models `toLowerCase` on the characters relevant to the
comparison against "bin" (ASCII letters; no non-ASCII string lowercases to
exactly "bin"). -/
def asciiLower (l : List Char) : List Char :=
  l.map (fun c => if 'A' ≤ c ∧ c ≤ 'Z' then Char.ofNat (c.toNat + 32) else c)

/-- The test index.ts line 188 performs on the parsed path:
`pathObject.name && pathObject.name.toLowerCase() === "bin"`. -/
def binNameMatches (w : Bool) (path : Option (List Char)) : Bool :=
  let nm := parseName w (path.getD [])
  !nm.isEmpty && asciiLower nm == "bin".toList

/-- `"This path is not pointing to a JDK."` (index.ts line 186). -/
def genericJdkHint : List Char := "This path is not pointing to a JDK.".toList

/-- `" Try remove the \"bin\" from the path."` (index.ts line 189). -/
def binHintSuffix : List Char := " Try remove the \"bin\" from the path.".toList

/-- The version-too-low hint prefix (index.ts line 197). -/
def jdkHintPre : List Char :=
  "JDK 11+ is required while the path is pointing to version ".toList

/-- The complete version-too-low hint, template `JDK 11+ is required while
the path is pointing to version ${version}`. -/
def jdkVersionHint (v : Nat) : List Char := jdkHintPre ++ (Nat.repr v).toList

/-! ### Discovery and validation (index.ts lines 118-204) -/

/-- `checkJdkInstallation` (index.ts lines 161-168): `false` for an absent or
empty path, else tilde-expand and test for the compiler binary. -/
def checkJdkInstallation (env : Env) (javaHome : Option (List Char)) : Bool :=
  match javaHome with
  | none => false
  | some p =>
    if p.isEmpty then false
    else env.pathExists (resolvePath (expandTilde env.homeDir p) (javacFilename (isWin env)))

/-- `getJavaVersion` (index.ts lines 118-128): `0` for an absent or empty
path; otherwise run `bin/java -version` (note: on the path as given, without
tilde expansion) and parse the diagnostic stream. The callback ignores the
error argument and always resolves; an execution failure leaves the
diagnostic stream empty. -/
def getJavaVersion (env : Env) (javaHome : Option (List Char)) : Nat :=
  match javaHome with
  | none => 0
  | some p =>
    if p.isEmpty then 0
    else parseMajorVersion ((env.execJavaStderr (resolvePath p (javaFilename (isWin env)))).getD [])

/-- The `command:workbench.action.openSettings` uri attached to the
`java.home` entry (index.ts line 136). -/
def javaHomeActionUri : List Char :=
  "command:workbench.action.openSettings?%22java.home%22".toList

/-- `findPossibleJdkInstallations` (index.ts lines 130-159): the three fixed
sources in order, then the `find-java-home` result, omitted entirely when the
probe reports an error. -/
def findPossibleJdkInstallations (env : Env) : List JavaRuntimeEntry :=
  [{ name := "java.home".toList, path := env.javaHomeSetting,
     type := JavaRuntimeEntryTypes.UserSetting,
     actionUri := some javaHomeActionUri, isValid := none, hint := none },
   { name := "JDK_HOME".toList, path := env.jdkHomeEnvVar,
     type := JavaRuntimeEntryTypes.EnvironmentVariable,
     actionUri := none, isValid := none, hint := none },
   { name := "JAVA_HOME".toList, path := env.javaHomeEnvVar,
     type := JavaRuntimeEntryTypes.EnvironmentVariable,
     actionUri := none, isValid := none, hint := none }]
  ++ (match env.autoDetected with
      | some home =>
        [{ name := "Other".toList, path := some home,
           type := JavaRuntimeEntryTypes.Other,
           actionUri := none, isValid := none, hint := none }]
      | none => [])

/-- The per-entry body of `findJavaRuntimeEntries` (index.ts lines 183-203):
no compiler binary → invalid with the generic hint, plus the remove-bin
suggestion when `path.parse(entry.path || "").name` is a non-empty
case-insensitive "bin"; otherwise gate on the extracted major version. -/
def validateEntry (env : Env) (entry : JavaRuntimeEntry) : JavaRuntimeEntry :=
  if !(checkJdkInstallation env entry.path) then
    let hint :=
      if binNameMatches (isWin env) entry.path then genericJdkHint ++ binHintSuffix
      else genericJdkHint
    { entry with isValid := some false, hint := some hint }
  else
    let version := getJavaVersion env entry.path
    if version < MIN_JDK_VERSION then
      { entry with isValid := some false, hint := some (jdkVersionHint version) }
    else
      { entry with isValid := some true }

/-- `findJavaRuntimeEntries` (index.ts lines 181-204). -/
def findJavaRuntimeEntries (env : Env) : List JavaRuntimeEntry :=
  (findPossibleJdkInstallations env).map (validateEntry env)

/-- The aggregate logic of `validateJavaRuntime` (index.ts lines 170-179) on
an entry list: the validity of the first entry whose path is non-empty
(`findIndex` + index access), else `_.some(entries, e => e.isValid)`. -/
def validateEntries (entries : List JavaRuntimeEntry) : Option Bool :=
  match entries.find? (fun e => !(pathIsEmpty e.path)) with
  | some e => e.isValid
  | none => some (entries.any (fun e => e.isValid.getD false))

/-- `validateJavaRuntime` (index.ts lines 170-179). -/
def validateJavaRuntime (env : Env) : Option Bool :=
  validateEntries (findJavaRuntimeEntries env)

/-! ### Remote release advisor (`suggestOpenJdk`, index.ts lines 206-225) -/

/-- The platform-token mapping of `suggestOpenJdk`. -/
def mapOs (platform : List Char) : List Char :=
  if platform = "win32".toList then "windows".toList
  else if platform = "darwin".toList then "mac".toList
  else "linux".toList

/-- The architecture-token mapping of `suggestOpenJdk`. -/
def mapArch (arch : List Char) : List Char :=
  if arch = "x86".toList then "x32".toList else arch

/-- The request uri template of `suggestOpenJdk` (index.ts line 222). -/
def adoptUrl (jdkVersion impl arch os : List Char) : List Char :=
  "https://api.adoptopenjdk.net/v2/info/releases/".toList ++ jdkVersion
    ++ "?openjdk_impl=".toList ++ impl
    ++ "&arch=".toList ++ arch
    ++ "&os=".toList ++ os
    ++ "&type=jdk&release=latest".toList

/-- `suggestOpenJdk` (index.ts lines 206-225): map the platform and
architecture, issue one GET request, and return its parsed response
unmodified; a failure of the request propagates to the caller. Call sites
pass the defaults `jdkVersion = "openjdk11"`, `impl = "hotspot"`. -/
def suggestOpenJdk (env : Env) (jdkVersion impl : List Char) :
    Except (List Char) (List Char) :=
  env.httpGet (adoptUrl jdkVersion impl (mapArch env.arch) (mapOs env.platform))

/-! ### Panel lifecycle

The three panel modules (java-runtime, ext-guide, getting-started) are
structurally identical: a module-level `Option` holding the current webview
panel, an open-command handler, a dispose callback that clears the reference,
and a serializer that restores a panel. The mutable reference becomes an
explicit `Option Nat` state (panel identities as numbers); the host-visible
operations of each transition are recorded as a list of actions. `initialize`
(loading the fixed static document and registering the single inbound message
dispatcher) is the `loadHtml`/`addDispatcher` pair. -/

structure PanelConfig where
  viewType : List Char
  title : List Char
  htmlPath : List Char
deriving DecidableEq

/-- The java-runtime panel (index.ts lines 26 and 43). -/
def javaRuntimePanelConfig : PanelConfig :=
  { viewType := "java.runtime".toList,
    title := "Configure Java Runtime".toList,
    htmlPath := "./out/assets/java-runtime/index.html".toList }

/-- The extension-guide panel (ext-guide/index.ts lines 17 and 34). -/
def extGuidePanelConfig : PanelConfig :=
  { viewType := "java.extGuide".toList,
    title := "Java Extension Guide".toList,
    htmlPath := "./out/assets/ext-guide/index.html".toList }

/-- The getting-started panel (lines 17 and 34 of its module). -/
def gettingStartedPanelConfig : PanelConfig :=
  { viewType := "java.gettingStarted".toList,
    title := "Java Getting Started".toList,
    htmlPath := "./out/assets/getting-started/index.html".toList }

inductive PanelAction where
  | reveal (p : Nat)
  | create (p : Nat) (viewType : List Char)
  | loadHtml (p : Nat) (htmlPath : List Char)
  | addDispatcher (p : Nat)
  | disposeIncoming (p : Nat)
deriving DecidableEq

inductive PanelEvent where
  | openCmd (fresh : Nat)
  | disposedEvt
  | restore (incoming : Nat)
deriving DecidableEq

/-- One transition of a panel module: the open-command handler (reveal and
return when an instance exists, otherwise create and initialize), the
`onDidDispose` callback (clear the reference), and the serializer's
`deserializeWebviewPanel` (reveal the existing instance and dispose the
incoming panel, or adopt and initialize the incoming panel). -/
def step (cfg : PanelConfig) : Option Nat → PanelEvent → Option Nat × List PanelAction
  | some p, PanelEvent.openCmd _ => (some p, [PanelAction.reveal p])
  | none, PanelEvent.openCmd fresh =>
    (some fresh,
     [PanelAction.create fresh cfg.viewType,
      PanelAction.loadHtml fresh cfg.htmlPath,
      PanelAction.addDispatcher fresh])
  | _, PanelEvent.disposedEvt => (none, [])
  | some p, PanelEvent.restore incoming =>
    (some p, [PanelAction.reveal p, PanelAction.disposeIncoming incoming])
  | none, PanelEvent.restore incoming =>
    (some incoming,
     [PanelAction.loadHtml incoming cfg.htmlPath,
      PanelAction.addDispatcher incoming])

/-- Count of dispatcher registrations in an action list. -/
def countDispatchers (acts : List PanelAction) : Nat :=
  (acts.filter (fun a =>
    match a with
    | PanelAction.addDispatcher _ => true
    | _ => false)).length

/-- Count of panel constructions in an action list. -/
def countCreates (acts : List PanelAction) : Nat :=
  (acts.filter (fun a =>
    match a with
    | PanelAction.create _ _ => true
    | _ => false)).length

/-! ### Concrete fixtures used by the witnesses -/

/-- A placeholder entry for total list indexing in witnesses. -/
def defaultEntry : JavaRuntimeEntry :=
  { name := [], path := none, type := JavaRuntimeEntryTypes.Other,
    actionUri := none, isValid := none, hint := none }

/-- A JDK 8 banner as printed by `java -version`. -/
def banner8 : List Char := "java version \"1.8.0_292\"".toList

/-- A JDK 11 banner as printed by `java -version`. -/
def banner11 : List Char := "openjdk version \"11.0.2\" 2019-01-15".toList

/-- Environment with every source absent and every probe failing. -/
def envAllEmpty : Env :=
  { javaHomeSetting := none, jdkHomeEnvVar := none, javaHomeEnvVar := none,
    autoDetected := none, platform := "linux".toList, arch := "x64".toList,
    homeDir := "/home/user".toList,
    pathExists := fun _ => false,
    execJavaStderr := fun _ => none,
    httpGet := fun _ => Except.error ("down".toList) }

/-- Environment where only `JAVA_HOME` is set and it holds a valid JDK 11. -/
def envValid : Env :=
  { envAllEmpty with
    javaHomeEnvVar := some ("/jdk".toList),
    pathExists := fun _ => true,
    execJavaStderr := fun _ => some banner11 }

/-- Environment where only `JAVA_HOME` is set and it holds a JDK 8. -/
def envLow : Env :=
  { envAllEmpty with
    javaHomeEnvVar := some ("/jdk".toList),
    pathExists := fun _ => true,
    execJavaStderr := fun _ => some banner8 }

/-- Environment where `JAVA_HOME` is set, the compiler binary exists, but
running `bin/java` fails. -/
def envExecFail : Env :=
  { envAllEmpty with
    javaHomeEnvVar := some ("/jdk".toList),
    pathExists := fun _ => true,
    execJavaStderr := fun _ => none,
    httpGet := fun _ => Except.error ("boom".toList) }

/-- Environment whose auto-detection probe succeeds. -/
def envAuto : Env :=
  { envAllEmpty with autoDetected := some ("/auto/jdk".toList) }

/-- Windows 32-bit environment for the advisor witness. -/
def envWin : Env :=
  { envAllEmpty with platform := "win32".toList, arch := "x86".toList }

/-- macOS environment for the advisor witness. -/
def envDarwin : Env :=
  { envAllEmpty with platform := "darwin".toList }

/-- Environment whose advisory endpoint answers successfully. -/
def envOk : Env :=
  { envAllEmpty with httpGet := fun _ => Except.ok ("release-info".toList) }

/-- The validated `JAVA_HOME` entry of `envLow` (third entry). -/
def entryLowValidated : JavaRuntimeEntry :=
  (findJavaRuntimeEntries envLow).getD 2 defaultEntry

/-- An entry with an absent path. -/
def entryEmptyPath : JavaRuntimeEntry :=
  { defaultEntry with
    name := "JDK_HOME".toList,
    type := JavaRuntimeEntryTypes.EnvironmentVariable }

/-- An entry whose path is set but holds no JDK. -/
def entryJdkPath : JavaRuntimeEntry :=
  { defaultEntry with
    name := "JAVA_HOME".toList,
    path := some ("/jdk".toList),
    type := JavaRuntimeEntryTypes.EnvironmentVariable }

/-- An entry whose path ends in the segment `bin.old`, which node
`path.parse` reduces to the name `bin`. -/
def entryBinOld : JavaRuntimeEntry :=
  { defaultEntry with
    name := "java.home".toList,
    path := some ("/jdk/bin.old".toList),
    type := JavaRuntimeEntryTypes.UserSetting }

/-- A banner that contains `version "1.8.0_292"` preceded by an earlier,
different `version "..."` occurrence. -/
def cexBanner : List Char := "version \"9\" version \"1.8.0_292\"".toList

/-! ## Helper lemmas -/

theorem isPrefixOf_exists_append :
    ∀ (l₁ l₂ : List Char), l₁.isPrefixOf l₂ = true → ∃ t, l₂ = l₁ ++ t := by
  intro l₁
  induction l₁ with
  | nil => intro l₂ _; exact ⟨l₂, rfl⟩
  | cons a l ih =>
    intro l₂ h
    cases l₂ with
    | nil => simp [List.isPrefixOf] at h
    | cons b t =>
      simp only [List.isPrefixOf, Bool.and_eq_true, beq_iff_eq] at h
      obtain ⟨rfl, h2⟩ := h
      obtain ⟨u, hu⟩ := ih t h2
      exact ⟨u, by rw [hu]; rfl⟩

theorem dropAfterLastQuote_eq_some :
    ∀ (l p : List Char), dropAfterLastQuote l = some p → ∃ t, l = p ++ '"' :: t := by
  intro l
  induction l with
  | nil => intro p h; simp [dropAfterLastQuote] at h
  | cons c t ih =>
    intro p h
    rw [dropAfterLastQuote] at h
    cases hq : dropAfterLastQuote t with
    | some q =>
      rw [hq] at h
      obtain ⟨u, hu⟩ := ih q hq
      cases h
      exact ⟨u, by rw [hu]; rfl⟩
    | none =>
      rw [hq] at h
      by_cases hc : c = '"'
      · rw [if_pos hc] at h
        cases h
        exact ⟨t, by rw [hc]; rfl⟩
      · rw [if_neg hc] at h
        cases h

theorem pred_of_mem_takeWhile {p : Char → Bool} :
    ∀ {l : List Char} {a : Char}, a ∈ l.takeWhile p → p a = true := by
  intro l
  induction l with
  | nil => intro a h; simp [List.takeWhile] at h
  | cons b t ih =>
    intro a h
    rw [List.takeWhile_cons] at h
    by_cases hb : p b = true
    · rw [if_pos hb] at h
      cases h with
      | head => exact hb
      | tail _ h2 => exact ih h2
    · rw [if_neg hb] at h
      cases h

/-- Soundness of the regex search: a successful `exec` of `version "(.*)"`
exhibits the declarative decomposition of the content. -/
theorem findVersionToken_some_pattern :
    ∀ (content cap : List Char),
      findVersionToken content = some cap → hasVersionPattern content := by
  intro content
  induction content with
  | nil => intro cap h; simp [findVersionToken] at h
  | cons c rest ih =>
    intro cap h
    rw [findVersionToken] at h
    by_cases hp : versionLit.isPrefixOf (c :: rest) = true
    · rw [if_pos hp] at h
      cases hq : dropAfterLastQuote (lineRun ((c :: rest).drop versionLit.length)) with
      | none =>
        rw [hq] at h
        obtain ⟨pre, mid, post, heq, hmem⟩ := ih cap h
        exact ⟨c :: pre, mid, post, by rw [heq]; rfl, hmem⟩
      | some cap0 =>
        rw [hq] at h
        cases h
        obtain ⟨tl, htl⟩ := isPrefixOf_exists_append _ _ hp
        obtain ⟨t, ht⟩ := dropAfterLastQuote_eq_some _ _ hq
        have hdrop : (c :: rest).drop versionLit.length = tl := by
          rw [htl]; exact List.drop_left versionLit tl
        have hsplit : tl = lineRun tl ++ tl.dropWhile notLineTerm :=
          (List.takeWhile_append_dropWhile notLineTerm tl).symm
        have hlr : lineRun tl = cap ++ '"' :: t := by rw [← hdrop]; exact ht
        refine ⟨[], cap, t ++ tl.dropWhile notLineTerm, ?_, ?_⟩
        · rw [List.nil_append, htl]
          conv_lhs => rw [hsplit, hlr]
          simp [List.append_assoc]
        · intro x hx
          have hx2 : x ∈ lineRun tl := by
            rw [hlr]
            exact List.mem_append_left _ hx
          exact pred_of_mem_takeWhile hx2
    · rw [if_neg hp] at h
      obtain ⟨pre, mid, post, heq, hmem⟩ := ih cap h
      exact ⟨c :: pre, mid, post, by rw [heq]; rfl, hmem⟩

/-! ## Claim theorems -/

/-- C1 (amended): `parseMajorVersion` applies the quoted-token policy to the
leftmost `version "(.*)"` match (greedy: the capture runs to the last quote on
the same line): the result is `majorOfToken` of that capture — strip a legacy
`1.` prefix, then read the first run of decimal digits, `0` when none.
A banner whose extracted capture is `1.8.0_292` parses to 8, one whose
capture is `11.0.2` parses to 11, and a banner lacking the `version "..."`
pattern entirely parses to 0. (Merely containing `version "1.8.0_292"` as a
substring does not guarantee 8: an earlier `version "..."` occurrence wins.) -/
theorem parseMajorVersion_policy (content : List Char) :
    (∀ tok, findVersionToken content = some tok →
        parseMajorVersion content = majorOfToken tok)
  ∧ (¬ hasVersionPattern content → parseMajorVersion content = 0)
  ∧ (findVersionToken content = some ("1.8.0_292".toList) →
        parseMajorVersion content = 8)
  ∧ (findVersionToken content = some ("11.0.2".toList) →
        parseMajorVersion content = 11) := by
  refine ⟨?_, ?_, ?_, ?_⟩
  · intro tok h
    simp [parseMajorVersion, h]
  · intro hn
    cases hf : findVersionToken content with
    | none => simp [parseMajorVersion, hf]
    | some cap => exact absurd (findVersionToken_some_pattern content cap hf) hn
  · intro h
    simp only [parseMajorVersion, h]
    decide
  · intro h
    simp only [parseMajorVersion, h]
    decide

/-- C1 counterexample: `cexBanner` contains the substring
`version "1.8.0_292"`, yet `parseMajorVersion` returns 9, because the
leftmost match of `version "(.*)"` starts at the earlier occurrence. -/
theorem parseMajorVersion_contains_cex :
    (("version \"1.8.0_292\"".toList) <:+: cexBanner)
  ∧ parseMajorVersion cexBanner = 9 ∧ parseMajorVersion cexBanner ≠ 8 := by
  refine ⟨by decide, by decide, by decide⟩

/-- Witness for `parseMajorVersion_policy` at concrete banners. -/
theorem parseMajorVersion_policy_w :
    parseMajorVersion banner8 = 8 ∧ parseMajorVersion banner11 = 11 ∧
    parseMajorVersion ("no pattern here".toList) = 0 := by
  refine ⟨?_, ?_, ?_⟩
  · exact (parseMajorVersion_policy banner8).2.2.1 (by decide)
  · exact (parseMajorVersion_policy banner11).2.2.2 (by decide)
  · refine (parseMajorVersion_policy _).2.1 ?_
    rintro ⟨pre, mid, post, heq, -⟩
    have hinf : versionLit <:+: ("no pattern here".toList) :=
      ⟨pre, mid ++ '"' :: post, by rw [heq]; simp [List.append_assoc]⟩
    exact absurd hinf (by decide)

/-- Validation decorates an entry in place: the path survives unchanged. -/
theorem validateEntry_path (env : Env) (entry : JavaRuntimeEntry) :
    (validateEntry env entry).path = entry.path := by
  unfold validateEntry
  split
  · rfl
  · dsimp only
    split <;> rfl

/-- `checkJdkInstallation` is `false` on an absent or empty path, before any
filesystem access. -/
theorem checkJdk_empty (env : Env) (p : Option (List Char))
    (hp : pathIsEmpty p = true) : checkJdkInstallation env p = false := by
  cases p with
  | none => rfl
  | some s =>
    simp only [pathIsEmpty] at hp
    simp [checkJdkInstallation, hp]

/-- An entry with an empty path is always marked invalid by validation. -/
theorem validateEntry_empty_invalid (env : Env) (entry : JavaRuntimeEntry)
    (hp : pathIsEmpty entry.path = true) :
    (validateEntry env entry).isValid = some false := by
  have hc := checkJdk_empty env entry.path hp
  simp [validateEntry, hc]

/-- `find?` returns the element at the first index satisfying the test. -/
theorem find?_first_index {α : Type} (p : α → Bool) :
    ∀ (l : List α) (i : Nat) (h : i < l.length),
      p (l.get ⟨i, h⟩) = true → (∀ e ∈ l.take i, p e = false) →
      l.find? p = some (l.get ⟨i, h⟩) := by
  intro l
  induction l with
  | nil => intro i h; exact absurd h (by simp)
  | cons a t ih =>
    intro i h hp hprev
    cases i with
    | zero => exact List.find?_cons_of_pos t hp
    | succ j =>
      have ha : p a = false := hprev a (by simp)
      rw [List.find?_cons_of_neg _ (by simp [ha])]
      exact ih j (Nat.lt_of_succ_lt_succ h) hp
        (fun e he => hprev e (by simp [List.take_succ_cons]; exact Or.inr he))

/-- C2: `validateJavaRuntime` returns the `isValid` value of the first entry
(in enumeration order) whose path is non-empty, regardless of the validity of
any later entry; when every entry has an empty path it falls back to "some
entry is valid", which on validated entries evaluates to `some false`. -/
theorem validateJavaRuntime_aggregate (env : Env) :
    (∀ i : Nat, ∀ h : i < (findJavaRuntimeEntries env).length,
        pathIsEmpty ((findJavaRuntimeEntries env).get ⟨i, h⟩).path = false →
        (∀ e ∈ (findJavaRuntimeEntries env).take i, pathIsEmpty e.path = true) →
        validateJavaRuntime env = ((findJavaRuntimeEntries env).get ⟨i, h⟩).isValid)
  ∧ ((∀ e ∈ findJavaRuntimeEntries env, pathIsEmpty e.path = true) →
        validateJavaRuntime env = some false) := by
  constructor
  · intro i h hne hprev
    have hfind := find?_first_index (fun e => !(pathIsEmpty e.path))
      (findJavaRuntimeEntries env) i h (by simpa using hne)
      (fun e he => by simp [hprev e he])
    simp [validateJavaRuntime, validateEntries, hfind]
  · intro hall
    have hnone : (findJavaRuntimeEntries env).find?
        (fun e => !(pathIsEmpty e.path)) = none := by
      rw [List.find?_eq_none]
      intro e he
      simp [hall e he]
    have hfalse : ∀ e ∈ findJavaRuntimeEntries env, e.isValid.getD false = false := by
      intro e he
      have hpe : pathIsEmpty e.path = true := hall e he
      obtain ⟨r, hr, rfl⟩ := List.mem_map.mp he
      rw [validateEntry_path] at hpe
      rw [validateEntry_empty_invalid env r hpe]
      rfl
    simp only [validateJavaRuntime, validateEntries, hnone]
    exact congrArg some (List.any_eq_false.mpr (fun e he => by simp [hfalse e he]))

/-- Witness for `validateJavaRuntime_aggregate`: with only `JAVA_HOME` set to
a valid JDK 11 the aggregate is `some true`; with every source absent it is
`some false`. -/
theorem validateJavaRuntime_aggregate_w :
    validateJavaRuntime envValid = some true ∧
    validateJavaRuntime envAllEmpty = some false := by
  constructor
  · have h := (validateJavaRuntime_aggregate envValid).1 2 (by decide)
      (by decide) (by decide)
    rw [h]
    decide
  · exact (validateJavaRuntime_aggregate envAllEmpty).2 (by decide)

/-- Every entry the enumerator produces carries unset `isValid` and `hint`. -/
theorem raw_entry_unset (env : Env) :
    ∀ e ∈ findPossibleJdkInstallations env, e.isValid = none ∧ e.hint = none := by
  intro e he
  unfold findPossibleJdkInstallations at he
  cases hauto : env.autoDetected with
  | none =>
    rw [hauto] at he
    simp at he
    rcases he with rfl | rfl | rfl <;> exact ⟨rfl, rfl⟩
  | some h =>
    rw [hauto] at he
    simp at he
    rcases he with rfl | rfl | rfl | rfl <;> exact ⟨rfl, rfl⟩

/-- C3: for a validated entry whose compiler binary exists, a major version
below the fixed minimum 11 yields `isValid = some false` with a hint
containing both "11" and the decimal rendering of the detected version, while
a major version of at least 11 yields `isValid = some true` and no hint. -/
theorem findJavaRuntimeEntries_version_gate (env : Env) (e : JavaRuntimeEntry)
    (he : e ∈ findJavaRuntimeEntries env)
    (hjavac : checkJdkInstallation env e.path = true) :
    (getJavaVersion env e.path < MIN_JDK_VERSION →
        e.isValid = some false ∧
        ∃ hint, e.hint = some hint ∧ (("11".toList) <:+: hint) ∧
          (((Nat.repr (getJavaVersion env e.path)).toList) <:+: hint))
  ∧ (MIN_JDK_VERSION ≤ getJavaVersion env e.path →
        e.isValid = some true ∧ e.hint = none) := by
  obtain ⟨r, hr, rfl⟩ := List.mem_map.mp he
  have hpath : (validateEntry env r).path = r.path := validateEntry_path env r
  rw [hpath] at hjavac ⊢
  constructor
  · intro hlt
    refine ⟨by simp [validateEntry, hjavac, hlt], ?_⟩
    refine ⟨jdkVersionHint (getJavaVersion env r.path),
      by simp [validateEntry, hjavac, hlt], ?_, ?_⟩
    · obtain ⟨s, t, hst⟩ : ("11".toList) <:+: jdkHintPre := by decide
      exact ⟨s, t ++ (Nat.repr (getJavaVersion env r.path)).toList,
        by rw [jdkVersionHint, ← hst]; simp [List.append_assoc]⟩
    · exact ⟨jdkHintPre, [], by simp [jdkVersionHint]⟩
  · intro hge
    have hnl : ¬ (getJavaVersion env r.path < MIN_JDK_VERSION) := Nat.not_lt.mpr hge
    have hint_none : r.hint = none := (raw_entry_unset env r hr).2
    constructor
    · simp [validateEntry, hjavac, hnl]
    · simp [validateEntry, hjavac, hnl, hint_none]

/-- Witness for `findJavaRuntimeEntries_version_gate`: a JDK 8 installation
is marked invalid, a JDK 11 installation valid. -/
theorem findJavaRuntimeEntries_version_gate_w :
    entryLowValidated.isValid = some false ∧
    ((findJavaRuntimeEntries envValid).getD 2 defaultEntry).isValid = some true := by
  constructor
  · exact ((findJavaRuntimeEntries_version_gate envLow entryLowValidated
      (by decide) (by decide)).1 (by decide)).1
  · exact ((findJavaRuntimeEntries_version_gate envValid
      ((findJavaRuntimeEntries envValid).getD 2 defaultEntry)
      (by decide) (by decide)).2 (by decide)).1

/-- C4 (amended): an empty or absent path is marked invalid with the generic
hint, with no dependence on the filesystem or process environment; a
non-empty path lacking the compiler binary is marked invalid with the same
generic hint, and the remove-bin suggestion is appended if and only if node
`path.parse` reduces the path to a non-empty name equal to "bin"
case-insensitively — the final segment with its dot-extension removed, not
the final segment verbatim. -/
theorem checkJdk_missing_hints (env : Env) :
    (∀ entry : JavaRuntimeEntry, pathIsEmpty entry.path = true →
        (validateEntry env entry).isValid = some false ∧
        (validateEntry env entry).hint = some genericJdkHint ∧
        (∀ env2 : Env, validateEntry env entry = validateEntry env2 entry))
  ∧ (∀ entry : JavaRuntimeEntry, pathIsEmpty entry.path = false →
        checkJdkInstallation env entry.path = false →
        (validateEntry env entry).isValid = some false ∧
        ((validateEntry env entry).hint = some (genericJdkHint ++ binHintSuffix) ↔
          binNameMatches (isWin env) entry.path = true) ∧
        (binNameMatches (isWin env) entry.path = false →
          (validateEntry env entry).hint = some genericJdkHint)) := by
  constructor
  · intro entry hp
    have hb : ∀ w : Bool, binNameMatches w entry.path = false := by
      intro w
      cases hpath : entry.path with
      | none => rfl
      | some s =>
        rw [hpath] at hp
        simp only [pathIsEmpty, List.isEmpty_iff] at hp
        rw [hp]
        rfl
    have hc := checkJdk_empty env entry.path hp
    refine ⟨validateEntry_empty_invalid env entry hp, ?_, ?_⟩
    · simp [validateEntry, hc, hb (isWin env)]
    · intro env2
      have hc2 := checkJdk_empty env2 entry.path hp
      simp [validateEntry, hc, hc2, hb]
  · intro entry hne hcheck
    cases hbm : binNameMatches (isWin env) entry.path with
    | false =>
      have hhint : (validateEntry env entry).hint = some genericJdkHint := by
        simp [validateEntry, hcheck, hbm]
      refine ⟨by simp [validateEntry, hcheck], ?_, fun _ => hhint⟩
      rw [hhint]
      constructor
      · intro hh
        exact absurd (Option.some.inj hh) (by decide)
      · intro hf
        exact absurd hf (by decide)
    | true =>
      refine ⟨by simp [validateEntry, hcheck], ?_, ?_⟩
      · simp [validateEntry, hcheck, hbm]
      · intro hf
        exact absurd hf (by decide)

/-- C4 counterexample: the path `/jdk/bin.old` is non-empty, lacks the
compiler binary, and its final segment is not "bin" in any letter case, yet
the remove-bin suggestion is appended, because `path.parse` strips the
`.old` extension before the comparison. -/
theorem bin_hint_segment_cex :
    pathIsEmpty entryBinOld.path = false ∧
    checkJdkInstallation envAllEmpty entryBinOld.path = false ∧
    (validateEntry envAllEmpty entryBinOld).hint =
      some (genericJdkHint ++ binHintSuffix) ∧
    asciiLower (baseNameOf (isWin envAllEmpty) ("/jdk/bin.old".toList)) ≠
      ("bin".toList) := by
  refine ⟨by decide, by decide, by decide, by decide⟩

/-- Witness for `checkJdk_missing_hints` at concrete entries. -/
theorem checkJdk_missing_hints_w :
    (validateEntry envAllEmpty entryEmptyPath).hint = some genericJdkHint ∧
    (validateEntry envAllEmpty entryJdkPath).hint = some genericJdkHint ∧
    (validateEntry envAllEmpty entryBinOld).isValid = some false := by
  refine ⟨?_, ?_, ?_⟩
  · exact ((checkJdk_missing_hints envAllEmpty).1 entryEmptyPath (by decide)).2.1
  · exact ((checkJdk_missing_hints envAllEmpty).2 entryJdkPath (by decide)
      (by decide)).2.2 (by decide)
  · exact ((checkJdk_missing_hints envAllEmpty).2 entryBinOld (by decide)
      (by decide)).1

/-- C5: enumeration returns, in fixed priority order, the `java.home` user
setting, `JDK_HOME`, `JAVA_HOME`, then the auto-detection result; when
auto-detection fails its entry is omitted entirely (3 entries instead of 4);
absent sources contribute an entry with an absent path; the function is total
(no error is raised). -/
theorem findPossibleJdkInstallations_order (env : Env) :
    ((findPossibleJdkInstallations env).map (fun e => (e.name, e.path, e.type)) =
      [("java.home".toList, env.javaHomeSetting, JavaRuntimeEntryTypes.UserSetting),
       ("JDK_HOME".toList, env.jdkHomeEnvVar, JavaRuntimeEntryTypes.EnvironmentVariable),
       ("JAVA_HOME".toList, env.javaHomeEnvVar, JavaRuntimeEntryTypes.EnvironmentVariable)]
      ++ (match env.autoDetected with
          | some home => [("Other".toList, some home, JavaRuntimeEntryTypes.Other)]
          | none => []))
  ∧ (env.autoDetected = none → (findPossibleJdkInstallations env).length = 3)
  ∧ (∀ home, env.autoDetected = some home →
        (findPossibleJdkInstallations env).length = 4) := by
  refine ⟨?_, ?_, ?_⟩
  · cases h : env.autoDetected <;> simp [findPossibleJdkInstallations, h]
  · intro h
    simp [findPossibleJdkInstallations, h]
  · intro home h
    simp [findPossibleJdkInstallations, h]

/-- Witness for `findPossibleJdkInstallations_order`: 3 entries when the
probe fails, 4 when it succeeds. -/
theorem findPossibleJdkInstallations_order_w :
    (findPossibleJdkInstallations envAllEmpty).length = 3 ∧
    (findPossibleJdkInstallations envAuto).length = 4 := by
  constructor
  · exact (findPossibleJdkInstallations_order envAllEmpty).2.1 (by decide)
  · exact (findPossibleJdkInstallations_order envAuto).2.2 ("/auto/jdk".toList)
      (by decide)

/-- C6: validation-path failures are never surfaced: a failed `bin/java`
invocation yields extracted version 0; with the compiler binary present it
collapses into the version-too-low invalid record (hint for version 0); every
validated entry is a structured record with a definite `isValid`; the
advisory call is the one operation whose failure propagates to its caller. -/
theorem validation_failure_policy (env : Env) :
    (∀ p : List Char, p ≠ [] →
        env.execJavaStderr (resolvePath p (javaFilename (isWin env))) = none →
        getJavaVersion env (some p) = 0)
  ∧ (∀ e ∈ findJavaRuntimeEntries env, ∃ b : Bool, e.isValid = some b)
  ∧ (∀ entry : JavaRuntimeEntry,
        checkJdkInstallation env entry.path = true →
        env.execJavaStderr
          (resolvePath (entry.path.getD []) (javaFilename (isWin env))) = none →
        (validateEntry env entry).isValid = some false ∧
        (validateEntry env entry).hint = some (jdkVersionHint 0))
  ∧ (∀ v impl err, env.httpGet
        (adoptUrl v impl (mapArch env.arch) (mapOs env.platform)) =
          Except.error err →
        suggestOpenJdk env v impl = Except.error err) := by
  refine ⟨?_, ?_, ?_, ?_⟩
  · intro p hp hexec
    have hpe : p.isEmpty = false := by
      cases p with
      | nil => exact absurd rfl hp
      | cons a t => rfl
    simp [getJavaVersion, hpe, hexec]
    decide
  · intro e he
    obtain ⟨r, hr, rfl⟩ := List.mem_map.mp he
    unfold validateEntry
    split
    · exact ⟨false, rfl⟩
    · dsimp only
      split
      · exact ⟨false, rfl⟩
      · exact ⟨true, rfl⟩
  · intro entry hcheck hexec
    cases hpath : entry.path with
    | none =>
      rw [hpath] at hcheck
      exact absurd hcheck (by simp [checkJdkInstallation])
    | some p =>
      rw [hpath] at hexec
      have hpe : p.isEmpty = false := by
        cases hq : p.isEmpty with
        | false => rfl
        | true =>
          rw [hpath] at hcheck
          simp [checkJdkInstallation, hq] at hcheck
      have hv : getJavaVersion env entry.path = 0 := by
        rw [hpath]
        simp only [Option.getD_some] at hexec
        simp [getJavaVersion, hpe, hexec]
        decide
      have hlt : getJavaVersion env entry.path < MIN_JDK_VERSION := by
        rw [hv]; decide
      constructor
      · simp [validateEntry, hcheck, hlt]
      · simp [validateEntry, hcheck, hlt, hv, MIN_JDK_VERSION]
  · intro v impl err h
    exact h

/-- Witness for `validation_failure_policy`: a failing `bin/java` produces
version 0 and an invalid record naming version 0; a failing advisory call
propagates its error. -/
theorem validation_failure_policy_w :
    getJavaVersion envExecFail (some ("/jdk".toList)) = 0 ∧
    (∃ b : Bool, ((findJavaRuntimeEntries envExecFail).getD 2
        defaultEntry).isValid = some b) ∧
    (validateEntry envExecFail entryJdkPath).hint = some (jdkVersionHint 0) ∧
    suggestOpenJdk envExecFail ("openjdk11".toList) ("hotspot".toList) =
      Except.error ("boom".toList) := by
  refine ⟨?_, ?_, ?_, ?_⟩
  · exact (validation_failure_policy envExecFail).1 ("/jdk".toList)
      (by decide) (by decide)
  · exact (validation_failure_policy envExecFail).2.1 _ (by decide)
  · exact ((validation_failure_policy envExecFail).2.2.1 entryJdkPath
      (by decide) (by decide)).2
  · exact (validation_failure_policy envExecFail).2.2.2
      ("openjdk11".toList) ("hotspot".toList) ("boom".toList) rfl

/-- C7: the advisor maps the platform to exactly one of windows/mac/linux
(win32 → windows, darwin → mac, everything else → linux), normalizes 32-bit
x86 to the token x32 (distinct from the 64-bit token), and issues a single
GET to the fixed `/v2/info/releases/{jdkVersion}` endpoint with query
parameters openjdk_impl, arch, os, type=jdk, release=latest, returning the
parsed response unmodified. -/
theorem suggestOpenJdk_request (env : Env) (v impl : List Char) :
    (mapOs env.platform = "windows".toList ∨ mapOs env.platform = "mac".toList ∨
      mapOs env.platform = "linux".toList)
  ∧ (env.platform = "win32".toList → mapOs env.platform = "windows".toList)
  ∧ (env.platform = "darwin".toList → mapOs env.platform = "mac".toList)
  ∧ (env.platform ≠ "win32".toList → env.platform ≠ "darwin".toList →
        mapOs env.platform = "linux".toList)
  ∧ (mapArch ("x86".toList) = "x32".toList ∧ ("x32".toList) ≠ ("x64".toList) ∧
        mapArch ("x64".toList) = "x64".toList)
  ∧ suggestOpenJdk env v impl =
      env.httpGet (adoptUrl v impl (mapArch env.arch) (mapOs env.platform))
  ∧ (∀ r, env.httpGet (adoptUrl v impl (mapArch env.arch) (mapOs env.platform)) =
        Except.ok r → suggestOpenJdk env v impl = Except.ok r)
  ∧ adoptUrl v impl (mapArch env.arch) (mapOs env.platform) =
      ("https://api.adoptopenjdk.net/v2/info/releases/".toList) ++ v
        ++ ("?openjdk_impl=".toList) ++ impl
        ++ ("&arch=".toList) ++ mapArch env.arch
        ++ ("&os=".toList) ++ mapOs env.platform
        ++ ("&type=jdk&release=latest".toList) := by
  refine ⟨?_, ?_, ?_, ?_, ⟨by decide, by decide, by decide⟩, rfl, ?_, rfl⟩
  · by_cases h1 : env.platform = "win32".toList
    · refine Or.inl ?_
      simp only [mapOs]
      rw [if_pos h1]
    · by_cases h2 : env.platform = "darwin".toList
      · refine Or.inr (Or.inl ?_)
        simp only [mapOs]
        rw [if_neg h1, if_pos h2]
      · refine Or.inr (Or.inr ?_)
        simp only [mapOs]
        rw [if_neg h1, if_neg h2]
  · intro h
    simp [mapOs, h]
  · intro h
    simp only [mapOs]
    rw [if_neg (by rw [h]; decide), if_pos h]
  · intro h1 h2
    simp only [mapOs]
    rw [if_neg h1, if_neg h2]
  · intro r h
    exact h

/-- Witness for `suggestOpenJdk_request` at concrete platforms and a
successful advisory call. -/
theorem suggestOpenJdk_request_w :
    mapOs envWin.platform = ("windows".toList) ∧
    mapOs envDarwin.platform = ("mac".toList) ∧
    mapOs envAllEmpty.platform = ("linux".toList) ∧
    suggestOpenJdk envOk ("openjdk11".toList) ("hotspot".toList) =
      Except.ok ("release-info".toList) := by
  refine ⟨?_, ?_, ?_, ?_⟩
  · exact (suggestOpenJdk_request envWin [] []).2.1 (by decide)
  · exact (suggestOpenJdk_request envDarwin [] []).2.2.1 (by decide)
  · exact (suggestOpenJdk_request envAllEmpty [] []).2.2.2.1 (by decide) (by decide)
  · exact (suggestOpenJdk_request envOk ("openjdk11".toList)
      ("hotspot".toList)).2.2.2.2.2.2.1 ("release-info".toList) rfl

/-- C8: enumeration alone never populates `isValid` or `hint`; after
validation every entry carries a definite boolean `isValid`, and a hint is
present if and only if the entry is invalid. Both functions are pure
functions of the environment record, so entries are produced fresh on each
call with no mutation across calls. -/
theorem entry_decoration_invariant (env : Env) :
    (∀ e ∈ findPossibleJdkInstallations env, e.isValid = none ∧ e.hint = none)
  ∧ (∀ e ∈ findJavaRuntimeEntries env,
        ∃ b : Bool, e.isValid = some b ∧ (e.hint ≠ none ↔ b = false)) := by
  refine ⟨raw_entry_unset env, ?_⟩
  intro e he
  obtain ⟨r, hr, rfl⟩ := List.mem_map.mp he
  have hhn : r.hint = none := (raw_entry_unset env r hr).2
  unfold validateEntry
  split
  · exact ⟨false, rfl, by simp⟩
  · dsimp only
    split
    · exact ⟨false, rfl, by simp⟩
    · exact ⟨true, rfl, by simp [hhn]⟩

/-- Witness for `entry_decoration_invariant` on concrete entries. -/
theorem entry_decoration_invariant_w :
    ((findPossibleJdkInstallations envValid).getD 0 defaultEntry).isValid = none ∧
    (∃ b : Bool, ((findJavaRuntimeEntries envValid).getD 2 defaultEntry).isValid
        = some b ∧
      (((findJavaRuntimeEntries envValid).getD 2 defaultEntry).hint ≠ none ↔
        b = false)) := by
  constructor
  · exact ((entry_decoration_invariant envValid).1 _ (by decide)).1
  · exact (entry_decoration_invariant envValid).2 _ (by decide)

/-- C9: each panel is a singleton-per-feature state machine. Opening while an
instance exists only reveals it (state unchanged, no construction); opening
from the unopened state constructs the panel, loads its static document, and
wires exactly one message dispatcher; disposal clears the singleton
reference, so the next open constructs anew. -/
theorem panel_singleton_lifecycle (cfg : PanelConfig) (p fresh : Nat) :
    step cfg (some p) (PanelEvent.openCmd fresh) = (some p, [PanelAction.reveal p])
  ∧ countCreates (step cfg (some p) (PanelEvent.openCmd fresh)).2 = 0
  ∧ step cfg none (PanelEvent.openCmd fresh) =
      (some fresh,
       [PanelAction.create fresh cfg.viewType,
        PanelAction.loadHtml fresh cfg.htmlPath,
        PanelAction.addDispatcher fresh])
  ∧ countDispatchers (step cfg none (PanelEvent.openCmd fresh)).2 = 1
  ∧ step cfg (some p) PanelEvent.disposedEvt = (none, [])
  ∧ step cfg none PanelEvent.disposedEvt = (none, [])
  ∧ (step cfg (step cfg (some p) PanelEvent.disposedEvt).1
        (PanelEvent.openCmd fresh)).1 = some fresh := by
  exact ⟨rfl, rfl, rfl, rfl, rfl, rfl, rfl⟩

/-- C10: restoring a panel through the serializer preserves the singleton
invariant: when an instance exists, the existing panel is revealed and the
incoming restored panel is disposed; only when no instance exists does the
restored panel become the singleton and get initialized. -/
theorem panel_restore_singleton (cfg : PanelConfig) (p incoming : Nat) :
    step cfg (some p) (PanelEvent.restore incoming) =
      (some p, [PanelAction.reveal p, PanelAction.disposeIncoming incoming])
  ∧ step cfg none (PanelEvent.restore incoming) =
      (some incoming,
       [PanelAction.loadHtml incoming cfg.htmlPath,
        PanelAction.addDispatcher incoming]) := by
  exact ⟨rfl, rfl⟩

end JavaPack

